import Mathlib

/-!
Verification of `queryExport.py`: a straight-line script that acquires an
OAuth2 client-credential token, POSTs one fixed hunting query to
`https://api.security.microsoft.com/api/advancedhunting/run`, and prints the
rows of the `Results` array of the JSON response.

The script is embedded as a pure function of its environment: the dict
returned by `acquire_token_for_client` (the token-endpoint response) and the
HTTP response produced by `requests.post` for the query request.  The run
records the parameters of the token acquisition, the list of HTTP requests
sent, the rows printed, and whether the process finished normally or with
which error.
-/

/-- JSON-like values, the data that flows through the script: token-endpoint
responses, request bodies, query responses, and result rows. -/
inductive Json where
  | str : String → Json
  | num : Int → Json
  | bool : Bool → Json
  | null : Json
  | arr : List Json → Json
  | obj : List (String × Json) → Json

mutual

/-- Python `repr` of a JSON-like value, as `str.format` / f-strings render a
dict (escaping of special characters inside strings is not modelled).
`f"Failed to get token: \x7btoken_result\x7d"` renders the dict this way. -/
def pyRepr : Json → String
  | .str s => "\x27" ++ s ++ "\x27"
  | .num n => toString n
  | .bool b => if b then "True" else "False"
  | .null => "None"
  | .arr xs => "[" ++ pyReprItems xs ++ "]"
  | .obj kvs => "\x7b" ++ pyReprEntries kvs ++ "\x7d"

/-- The comma-separated `repr`s of the elements of a Python list. -/
def pyReprItems : List Json → String
  | [] => ""
  | [x] => pyRepr x
  | x :: y :: xs => pyRepr x ++ ", " ++ pyReprItems (y :: xs)

/-- The comma-separated `key: value` entries of a Python dict `repr`. -/
def pyReprEntries : List (String × Json) → String
  | [] => ""
  | [(k, v)] => "\x27" ++ k ++ "\x27: " ++ pyRepr v
  | (k, v) :: e :: kvs => "\x27" ++ k ++ "\x27: " ++ pyRepr v ++ ", " ++ pyReprEntries (e :: kvs)

end

/-- Python `str` of a JSON-like value: identity on strings, `repr` otherwise
(as f-string interpolation applies it, e.g. `f"Bearer \x7baccess_token\x7d"`). -/
def pyStr : Json → String
  | .str s => s
  | j => pyRepr j

/-- Python iteration over a JSON-like value, for `for row in ...`:
lists yield their elements, strings their characters, dicts their keys;
numbers, booleans and `None` raise `TypeError` (`none` here). -/
def pyIter : Json → Option (List Json)
  | .arr xs => some xs
  | .str s => some (s.toList.map fun c => Json.str (String.singleton c))
  | .obj kvs => some (kvs.map fun kv => Json.str kv.1)
  | _ => none

-- ---- Config (lines 5-11 of queryExport.py) ----

def TENANT_ID : String := "your-tenant-id"

def CLIENT_ID : String := "your-client-id"

def CLIENT_SECRET : String := "your-client-secret"

def AUTHORITY : String := "https://login.microsoftonline.com/" ++ TENANT_ID

def SCOPE : List String := ["https://api.security.microsoft.com/.default"]

def ENDPOINT : String := "https://api.security.microsoft.com/api/advancedhunting/run"

/-- The parameters of the single `acquire_token_for_client` call: the
`ConfidentialClientApplication` configuration (lines 14-18) plus the scopes
passed at the call site (line 19). -/
structure TokenRequest where
  clientId : String
  authority : String
  clientSecret : String
  scopes : List String
deriving DecidableEq

/-- The token acquisition the script performs: `app = ConfidentialClientApplication(
CLIENT_ID, authority=AUTHORITY, client_credential=CLIENT_SECRET)` followed by
`app.acquire_token_for_client(scopes=SCOPE)`. -/
def tokenAcquisition : TokenRequest :=
  { clientId := CLIENT_ID
    authority := AUTHORITY
    clientSecret := CLIENT_SECRET
    scopes := SCOPE }

/-- An HTTP POST request as `requests.post(ENDPOINT, headers=headers, json=body)`
determines it: target URL, header dict, JSON body. -/
structure HttpRequest where
  url : String
  headers : List (String × String)
  body : Json

/-- The response the environment returns for the query POST: its HTTP status
code and its body as parsed JSON object (`none` when the body is not valid
JSON, in which case `resp.json()` raises). -/
structure HttpResponse where
  statusCode : Nat
  jsonBody : Option (List (String × Json))

/-- How a run of the script ends. -/
inductive Outcome where
  | success : Outcome
  | systemExit : String → Outcome
  | httpError : Nat → Outcome
  | jsonDecodeError : Outcome
  | typeError : Outcome
deriving DecidableEq

/-- Everything observable about one run of the script. -/
structure RunResult where
  tokenRequest : TokenRequest
  requests : List HttpRequest
  printed : List Json
  outcome : Outcome

/-- Models `requests.Response.raise_for_status` from the `requests` library:
it raises `HTTPError` exactly when `400 <= status_code < 600`. -/
def raiseForStatusRaises (statusCode : Nat) : Bool :=
  decide (400 ≤ statusCode) && decide (statusCode < 600)

-- ---- Query (lines 26-32) ----

def query : String :=
  "\nDeviceProcessEvents\n| where InitiatingProcessFileName =~ \"powershell.exe\"\n| project Timestamp, FileName, InitiatingProcessFileName\n| order by Timestamp desc\n| limit 2\n"

/-- The header dict built at lines 34-37 from the obtained token. -/
def requestHeaders (access_token : Json) : List (String × String) :=
  [("Authorization", "Bearer " ++ pyStr access_token),
   ("Content-Type", "application/json")]

/-- The request body built at line 38: `\x7b"Query": query\x7d`. -/
def requestBody : Json := Json.obj [("Query", Json.str query)]

/-- The single query POST of line 40, as a function of the obtained token. -/
def queryRequest (access_token : Json) : HttpRequest :=
  { url := ENDPOINT
    headers := requestHeaders access_token
    body := requestBody }

/-- Shallow embedding of the whole script (lines 14-46) as a function of its
environment: `token_result`, the dict the token endpoint yields, and `resp`,
the HTTP response to the query POST.  Follows the source line by line:
token check and `SystemExit` (20-21), header/body construction (34-38), the
POST (40), `raise_for_status` (41), `resp.json()` (42), and the print loop
over `data.get("Results", [])` (45-46). -/
def runProgram (token_result : List (String × Json)) (resp : HttpResponse) : RunResult :=
  match token_result.lookup "access_token" with
  | none =>
      { tokenRequest := tokenAcquisition
        requests := []
        printed := []
        outcome := .systemExit ("Failed to get token: " ++ pyRepr (Json.obj token_result)) }
  | some access_token =>
      if raiseForStatusRaises resp.statusCode then
        { tokenRequest := tokenAcquisition
          requests := [queryRequest access_token]
          printed := []
          outcome := .httpError resp.statusCode }
      else
        match resp.jsonBody with
        | none =>
            { tokenRequest := tokenAcquisition
              requests := [queryRequest access_token]
              printed := []
              outcome := .jsonDecodeError }
        | some data =>
            match pyIter ((data.lookup "Results").getD (Json.arr [])) with
            | none =>
                { tokenRequest := tokenAcquisition
                  requests := [queryRequest access_token]
                  printed := []
                  outcome := .typeError }
            | some rows =>
                { tokenRequest := tokenAcquisition
                  requests := [queryRequest access_token]
                  printed := rows
                  outcome := .success }

/-- Big-step semantics of the script as a relation between an environment and
a run: one constructor per control path of `runProgram` (token failure, HTTP
error status, JSON decode failure, non-iterable `Results`, success). -/
inductive Runs : List (String × Json) → HttpResponse → RunResult → Prop where
  | tokenFail (token_result : List (String × Json)) (resp : HttpResponse)
      (h : token_result.lookup "access_token" = none) :
      Runs token_result resp
        { tokenRequest := tokenAcquisition
          requests := []
          printed := []
          outcome := .systemExit ("Failed to get token: " ++ pyRepr (Json.obj token_result)) }
  | httpFail (token_result : List (String × Json)) (resp : HttpResponse) (tok : Json)
      (h : token_result.lookup "access_token" = some tok)
      (hr : raiseForStatusRaises resp.statusCode = true) :
      Runs token_result resp
        { tokenRequest := tokenAcquisition
          requests := [queryRequest tok]
          printed := []
          outcome := .httpError resp.statusCode }
  | decodeFail (token_result : List (String × Json)) (resp : HttpResponse) (tok : Json)
      (h : token_result.lookup "access_token" = some tok)
      (hr : raiseForStatusRaises resp.statusCode = false)
      (hb : resp.jsonBody = none) :
      Runs token_result resp
        { tokenRequest := tokenAcquisition
          requests := [queryRequest tok]
          printed := []
          outcome := .jsonDecodeError }
  | iterFail (token_result : List (String × Json)) (resp : HttpResponse) (tok : Json)
      (data : List (String × Json))
      (h : token_result.lookup "access_token" = some tok)
      (hr : raiseForStatusRaises resp.statusCode = false)
      (hb : resp.jsonBody = some data)
      (hi : pyIter ((data.lookup "Results").getD (Json.arr [])) = none) :
      Runs token_result resp
        { tokenRequest := tokenAcquisition
          requests := [queryRequest tok]
          printed := []
          outcome := .typeError }
  | ok (token_result : List (String × Json)) (resp : HttpResponse) (tok : Json)
      (data : List (String × Json)) (rows : List Json)
      (h : token_result.lookup "access_token" = some tok)
      (hr : raiseForStatusRaises resp.statusCode = false)
      (hb : resp.jsonBody = some data)
      (hi : pyIter ((data.lookup "Results").getD (Json.arr [])) = some rows) :
      Runs token_result resp
        { tokenRequest := tokenAcquisition
          requests := [queryRequest tok]
          printed := rows
          outcome := .success }

theorem runProgram_requests_of_no_token (token_result : List (String × Json))
    (resp : HttpResponse) (h : token_result.lookup "access_token" = none) :
    (runProgram token_result resp).requests = [] := by
  simp [runProgram, h]

theorem runProgram_requests_of_token (token_result : List (String × Json))
    (resp : HttpResponse) (tok : Json)
    (h : token_result.lookup "access_token" = some tok) :
    (runProgram token_result resp).requests = [queryRequest tok] := by
  simp only [runProgram, h]
  split
  · rfl
  · split
    · rfl
    · split <;> rfl

theorem runProgram_tokenRequest (token_result : List (String × Json))
    (resp : HttpResponse) :
    (runProgram token_result resp).tokenRequest = tokenAcquisition := by
  unfold runProgram
  split
  · rfl
  · split
    · rfl
    · split
      · rfl
      · split <;> rfl

/-- The function `runProgram` is a run in the sense of the `Runs` relation. -/
theorem runProgram_runs (token_result : List (String × Json)) (resp : HttpResponse) :
    Runs token_result resp (runProgram token_result resp) := by
  unfold runProgram
  split
  · rename_i h
    exact Runs.tokenFail token_result resp h
  · rename_i tok h
    split
    · rename_i hr
      exact Runs.httpFail token_result resp tok h hr
    · rename_i hr
      rw [Bool.not_eq_true] at hr
      split
      · rename_i hb
        exact Runs.decodeFail token_result resp tok h hr hb
      · rename_i data hb
        split
        · rename_i hi
          exact Runs.iterFail token_result resp tok data h hr hb hi
        · rename_i rows hi
          exact Runs.ok token_result resp tok data rows h hr hb hi

/-- C1: if the token-endpoint response lacks the key "access_token", the run
sends no HTTP request and ends with `SystemExit` whose message contains the
rendering of the whole token response (it is, in fact,
`"Failed to get token: "` followed by that rendering). -/
theorem claim_C1_missing_token_aborts_with_response (token_result : List (String × Json))
    (resp : HttpResponse) (h : token_result.lookup "access_token" = none) :
    (runProgram token_result resp).requests = [] ∧
    ∃ msg, (runProgram token_result resp).outcome = Outcome.systemExit msg ∧
      ∃ p, msg = p ++ pyRepr (Json.obj token_result) := by
  refine ⟨runProgram_requests_of_no_token token_result resp h,
    "Failed to get token: " ++ pyRepr (Json.obj token_result), ?_,
    "Failed to get token: ", rfl⟩
  simp [runProgram, h]

/-- Witness for C1: a concrete token response carrying only an error field. -/
theorem claim_C1_witness :
    List.lookup "access_token" [("error", Json.str "bad")] = (none : Option Json) ∧
    ((runProgram [("error", Json.str "bad")] ⟨200, none⟩).requests = [] ∧
     ∃ msg,
       (runProgram [("error", Json.str "bad")] ⟨200, none⟩).outcome = Outcome.systemExit msg ∧
       ∃ p, msg = p ++ pyRepr (Json.obj [("error", Json.str "bad")])) :=
  ⟨rfl, claim_C1_missing_token_aborts_with_response [("error", Json.str "bad")] ⟨200, none⟩ rfl⟩

/-- C2 as stated is false on the code: 304 is not a 2xx status, yet
`raise_for_status` raises only for 400-599, so a 304 response with a JSON body
is processed normally and its rows are printed. -/
theorem claim_C2_counterexample :
    ¬ (200 ≤ (304 : Nat) ∧ (304 : Nat) < 300) ∧
    (runProgram [("access_token", Json.str "tok")]
        ⟨304, some [("Results", Json.arr [Json.obj [("Timestamp", Json.str "t1")]])]⟩).outcome
      = Outcome.success ∧
    (runProgram [("access_token", Json.str "tok")]
        ⟨304, some [("Results", Json.arr [Json.obj [("Timestamp", Json.str "t1")]])]⟩).printed
      = [Json.obj [("Timestamp", Json.str "t1")]] :=
  ⟨by omega, rfl, rfl⟩

/-- C2 amended: every query response with an HTTP status in 400-599 (the
statuses `raise_for_status` raises for) ends the run with `HTTPError` and
prints zero rows. -/
theorem claim_C2_amended_error_status_aborts (token_result : List (String × Json))
    (resp : HttpResponse) (tok : Json)
    (htok : token_result.lookup "access_token" = some tok)
    (h4 : 400 ≤ resp.statusCode) (h6 : resp.statusCode < 600) :
    (runProgram token_result resp).outcome = Outcome.httpError resp.statusCode ∧
    (runProgram token_result resp).printed = [] := by
  have hr : raiseForStatusRaises resp.statusCode = true := by
    simp only [raiseForStatusRaises, Bool.and_eq_true, decide_eq_true_eq]
    omega
  simp [runProgram, htok, hr]

/-- Witness for the amended C2 at a concrete 500 response. -/
theorem claim_C2_amended_witness :
    (runProgram [("access_token", Json.str "tok")] ⟨500, none⟩).outcome
        = Outcome.httpError 500 ∧
    (runProgram [("access_token", Json.str "tok")] ⟨500, none⟩).printed = [] :=
  claim_C2_amended_error_status_aborts [("access_token", Json.str "tok")] ⟨500, none⟩
    (Json.str "tok") rfl (by decide) (by decide)

/-- C3: for a 2xx query response whose body binds "Results" to a JSON list,
the run prints exactly the elements of that list, in order and unmodified,
and succeeds. -/
theorem claim_C3_results_list_printed_in_order (token_result : List (String × Json))
    (resp : HttpResponse) (tok : Json) (data : List (String × Json)) (rows : List Json)
    (htok : token_result.lookup "access_token" = some tok)
    (h2 : 200 ≤ resp.statusCode) (h3 : resp.statusCode < 300)
    (hbody : resp.jsonBody = some data)
    (hres : data.lookup "Results" = some (Json.arr rows)) :
    (runProgram token_result resp).printed = rows ∧
    (runProgram token_result resp).outcome = Outcome.success := by
  have hr : raiseForStatusRaises resp.statusCode = false := by
    simp only [raiseForStatusRaises, Bool.and_eq_false_iff, decide_eq_false_iff_not]
    omega
  simp [runProgram, htok, hr, hbody, hres, pyIter]

/-- Witness for C3: the two-timestamp response of the spec prints exactly two
rows in order. -/
theorem claim_C3_witness :
    (runProgram [("access_token", Json.str "tok")]
        ⟨200, some [("Results", Json.arr [Json.obj [("Timestamp", Json.str "t1")],
                                          Json.obj [("Timestamp", Json.str "t2")]])]⟩).printed
      = [Json.obj [("Timestamp", Json.str "t1")], Json.obj [("Timestamp", Json.str "t2")]] ∧
    (runProgram [("access_token", Json.str "tok")]
        ⟨200, some [("Results", Json.arr [Json.obj [("Timestamp", Json.str "t1")],
                                          Json.obj [("Timestamp", Json.str "t2")]])]⟩).outcome
      = Outcome.success :=
  claim_C3_results_list_printed_in_order [("access_token", Json.str "tok")]
    ⟨200, some [("Results", Json.arr [Json.obj [("Timestamp", Json.str "t1")],
                                      Json.obj [("Timestamp", Json.str "t2")]])]⟩
    (Json.str "tok")
    [("Results", Json.arr [Json.obj [("Timestamp", Json.str "t1")],
                           Json.obj [("Timestamp", Json.str "t2")]])]
    [Json.obj [("Timestamp", Json.str "t1")], Json.obj [("Timestamp", Json.str "t2")]]
    rfl (by decide) (by decide) rfl rfl

/-- C4: for a 2xx query response whose body has no "Results" key, the run
prints zero rows (`data.get("Results", [])` defaults to the empty list). -/
theorem claim_C4_missing_results_prints_nothing (token_result : List (String × Json))
    (resp : HttpResponse) (tok : Json) (data : List (String × Json))
    (htok : token_result.lookup "access_token" = some tok)
    (h2 : 200 ≤ resp.statusCode) (h3 : resp.statusCode < 300)
    (hbody : resp.jsonBody = some data)
    (hres : data.lookup "Results" = none) :
    (runProgram token_result resp).printed = [] ∧
    (runProgram token_result resp).outcome = Outcome.success := by
  have hr : raiseForStatusRaises resp.statusCode = false := by
    simp only [raiseForStatusRaises, Bool.and_eq_false_iff, decide_eq_false_iff_not]
    omega
  simp [runProgram, htok, hr, hbody, hres, pyIter]

/-- Witness for C4: a 200 response whose body has no "Results" key. -/
theorem claim_C4_witness :
    (runProgram [("access_token", Json.str "tok")]
        ⟨200, some [("Stats", Json.num 3)]⟩).printed = [] ∧
    (runProgram [("access_token", Json.str "tok")]
        ⟨200, some [("Stats", Json.num 3)]⟩).outcome = Outcome.success :=
  claim_C4_missing_results_prints_nothing [("access_token", Json.str "tok")]
    ⟨200, some [("Stats", Json.num 3)]⟩ (Json.str "tok") [("Stats", Json.num 3)]
    rfl (by decide) (by decide) rfl rfl

/-- C5: whenever a token is obtained, the run sends exactly one HTTP POST, to
the fixed advanced-hunting endpoint, with JSON body binding "Query" to the
query text and an Authorization header of "Bearer " followed by the token. -/
theorem claim_C5_single_post_request (token_result : List (String × Json))
    (resp : HttpResponse) (tok : Json)
    (htok : token_result.lookup "access_token" = some tok) :
    (runProgram token_result resp).requests =
      [{ url := "https://api.security.microsoft.com/api/advancedhunting/run",
         headers := [("Authorization", "Bearer " ++ pyStr tok),
                     ("Content-Type", "application/json")],
         body := Json.obj [("Query", Json.str query)] }] := by
  rw [runProgram_requests_of_token token_result resp tok htok]
  rfl

/-- Witness for C5 at a concrete token. -/
theorem claim_C5_witness :
    (runProgram [("access_token", Json.str "tok")] ⟨200, none⟩).requests =
      [{ url := "https://api.security.microsoft.com/api/advancedhunting/run",
         headers := [("Authorization", "Bearer " ++ pyStr (Json.str "tok")),
                     ("Content-Type", "application/json")],
         body := Json.obj [("Query", Json.str query)] }] :=
  claim_C5_single_post_request [("access_token", Json.str "tok")] ⟨200, none⟩
    (Json.str "tok") rfl

/-- C6: every request the run sends carries the body binding "Query" to the
program's query constant, and that constant is exactly the fixed multi-line
string of lines 26-32, character for character. -/
theorem claim_C6_query_sent_verbatim (token_result : List (String × Json))
    (resp : HttpResponse) :
    (∀ req ∈ (runProgram token_result resp).requests,
        req.body = Json.obj [("Query", Json.str query)]) ∧
    query = "\nDeviceProcessEvents\n| where InitiatingProcessFileName =~ \"powershell.exe\"\n| project Timestamp, FileName, InitiatingProcessFileName\n| order by Timestamp desc\n| limit 2\n" := by
  refine ⟨?_, rfl⟩
  intro req hreq
  cases h : token_result.lookup "access_token" with
  | none =>
      rw [runProgram_requests_of_no_token token_result resp h] at hreq
      cases hreq
  | some tok =>
      rw [runProgram_requests_of_token token_result resp tok h] at hreq
      rw [List.mem_singleton] at hreq
      subst hreq
      rfl

/-- Witness for C6: the concrete request built from a concrete token carries
the fixed query body. -/
theorem claim_C6_witness :
    (queryRequest (Json.str "tok")).body = Json.obj [("Query", Json.str query)] :=
  (claim_C6_query_sent_verbatim [("access_token", Json.str "tok")] ⟨200, none⟩).1
    (queryRequest (Json.str "tok"))
    (by rw [runProgram_requests_of_token [("access_token", Json.str "tok")] ⟨200, none⟩
          (Json.str "tok") rfl]
        exact List.mem_singleton.mpr rfl)

/-- C7: the token acquisition of every run requests exactly the single scope
"https://api.security.microsoft.com/.default". -/
theorem claim_C7_single_default_scope (token_result : List (String × Json))
    (resp : HttpResponse) :
    (runProgram token_result resp).tokenRequest.scopes =
      ["https://api.security.microsoft.com/.default"] := by
  rw [runProgram_tokenRequest]
  rfl

/-- C8: after a failed token acquisition no query POST is ever sent — the
run's request list is empty. -/
theorem claim_C8_no_query_after_token_failure (token_result : List (String × Json))
    (resp : HttpResponse) (h : token_result.lookup "access_token" = none) :
    (runProgram token_result resp).requests = [] :=
  runProgram_requests_of_no_token token_result resp h

/-- Witness for C8: an empty token response sends nothing. -/
theorem claim_C8_witness :
    (runProgram [] ⟨200, none⟩).requests = [] :=
  claim_C8_no_query_after_token_failure [] ⟨200, none⟩ rfl

/-- C9: the run relation is deterministic — for one fixed pair of environment
responses, any two runs print identical output and end with identical outcome. -/
theorem claim_C9_deterministic_runs (token_result : List (String × Json))
    (resp : HttpResponse) (r1 r2 : RunResult)
    (h1 : Runs token_result resp r1) (h2 : Runs token_result resp r2) :
    r1.printed = r2.printed ∧ r1.outcome = r2.outcome := by
  cases h1 <;> cases h2 <;> simp_all

/-- Witness for C9: the token-failure derivation and the run computed by
`runProgram` agree on a concrete environment. -/
theorem claim_C9_witness :
    RunResult.printed
        { tokenRequest := tokenAcquisition
          requests := []
          printed := []
          outcome := .systemExit ("Failed to get token: " ++ pyRepr (Json.obj [])) }
      = (runProgram [] ⟨0, none⟩).printed ∧
    RunResult.outcome
        { tokenRequest := tokenAcquisition
          requests := []
          printed := []
          outcome := .systemExit ("Failed to get token: " ++ pyRepr (Json.obj [])) }
      = (runProgram [] ⟨0, none⟩).outcome :=
  claim_C9_deterministic_runs [] ⟨0, none⟩ _ _
    (Runs.tokenFail [] ⟨0, none⟩ rfl) (runProgram_runs [] ⟨0, none⟩)

/-- C10: every query POST the run sends carries a Content-Type header set to
"application/json", alongside the Authorization header. -/
theorem claim_C10_content_type_header (token_result : List (String × Json))
    (resp : HttpResponse) :
    ∀ req ∈ (runProgram token_result resp).requests,
      req.headers.lookup "Content-Type" = some "application/json" := by
  intro req hreq
  cases h : token_result.lookup "access_token" with
  | none =>
      rw [runProgram_requests_of_no_token token_result resp h] at hreq
      cases hreq
  | some tok =>
      rw [runProgram_requests_of_token token_result resp tok h] at hreq
      rw [List.mem_singleton] at hreq
      subst hreq
      rfl

/-- Witness for C10: the concrete request built from a concrete token carries
the Content-Type header. -/
theorem claim_C10_witness :
    (queryRequest (Json.str "tok")).headers.lookup "Content-Type"
      = some "application/json" :=
  claim_C10_content_type_header [("access_token", Json.str "tok")] ⟨200, none⟩
    (queryRequest (Json.str "tok"))
    (by rw [runProgram_requests_of_token [("access_token", Json.str "tok")] ⟨200, none⟩
          (Json.str "tok") rfl]
        exact List.mem_singleton.mpr rfl)
